import Mathlib

/-!
Verification of the Greenplum SQL dialect (src/sqlglot/dialects/greenplum.py):
clause-level recursive-descent parsers for DISTRIBUTED BY / DISTRIBUTED RANDOMLY /
LOCATION / FORMAT / ENCODING, the external-table prefix scan and statement
assembly, and the per-node serializers.

The dialect module is embedded faithfully from the source.  Host-parser
primitives (token matching, csv parsing), the tokenizer engine and the generic
create-statement parse and serializer assembly live outside the provided
sources; those are modelled from the specification and are marked
"Modelled from the spec" in their doc comments.
-/

set_option maxRecDepth 4000

namespace Greenplum

/-- Token kinds.  The dialect reuses host token kinds for several keywords
(src Tokenizer.KEYWORDS: EXTERNAL/READABLE/WRITABLE map to CREATE, LOCATION to
FROM, ENCODING to CHARACTER_SET, FORMATTER to PROCEDURE) and introduces
dedicated kinds for the multi-word keywords DISTRIBUTED BY, DISTRIBUTED
RANDOMLY, ON ALL, ON MASTER, ON SEGMENTS. -/
inductive TokType where
  | CREATE | TABLE | L_PAREN | R_PAREN | COMMA | EQ | STRING | VAR | IDENTIFIER
  | FROM | FORMAT | CHARACTER_SET | ON | PROCEDURE | ALIAS | NULLT | SEMICOLON
  | DISTRIBUTED_BY | DISTRIBUTED_RANDOMLY | ON_ALL | ON_MASTER | ON_SEGMENTS
  deriving DecidableEq, Repr

/-- A token: a kind together with the source text of the lexeme. -/
structure Token where
  ttype : TokType
  text : String
  deriving DecidableEq, Repr

/-- Parse session state: the three transient flags the dialect parser stores as
ad hoc instance attributes (_is_external, _external_readable,
_external_writable).  Each attribute is either absent or set to True in the
source, so presence-and-truth is modelled as a plain Bool. -/
structure Session where
  isExternal : Bool
  extReadable : Bool
  extWritable : Bool
  deriving DecidableEq, Repr

/-- The all-clear session of a freshly constructed parser instance. -/
def sessInit : Session := ⟨false, false, false⟩

/-- Parser state: the token stream, the cursor (_index), the buffered leading
comments (_comments) and the parse session flags. -/
structure PState where
  tokens : List Token
  index : Nat
  comments : List String
  sess : Session
  deriving DecidableEq, Repr

/-- Modelled from the spec: the host parser's current-token accessor
(self._curr), absent from src/. -/
def curr (st : PState) : Option Token :=
  st.tokens.get? st.index

/-- Modelled from the spec: the host parser's cursor advance, absent from
src/. -/
def advanceState (st : PState) : PState :=
  { st with index := st.index + 1 }

/-- Uppercase an ASCII letter. -/
def upChar (c : Char) : Char :=
  if 'a' ≤ c ∧ c ≤ 'z' then Char.ofNat (c.toNat - 32) else c

/-- Uppercase a string (text.upper() on the keyword lexemes in play). -/
def upStr (s : String) : String :=
  String.mk (s.data.map upChar)

/-- True when the first list is a prefix of the second. -/
def charsPrefix : List Char → List Char → Bool
  | [], _ => true
  | _ :: _, [] => false
  | a :: as, b :: bs => a = b && charsPrefix as bs

/-- True when the needle occurs inside the haystack. -/
def charsSub : List Char → List Char → Bool
  | _, [] => false
  | needle, c :: cs => charsPrefix needle (c :: cs) || charsSub needle cs

/-- Python substring membership: needle in haystack.  The host`s _match_texts
receives a plain string from several dialect call sites, so the membership
test degenerates to substring containment. -/
def strContains (hay needle : String) : Bool :=
  needle.isEmpty || charsPrefix needle.data hay.data || charsSub needle.data hay.data

/-- Modelled from the spec: the host parser's _match — advance over the current
token when it has the given kind, returning it. -/
def matchType (tt : TokType) (st : PState) : Option (Token × PState) :=
  match curr st with
  | some t => if t.ttype = tt then some (t, advanceState st) else none
  | none => none

/-- Modelled from the spec: the host parser's _match_texts applied to a single
string, as the dialect does in _parse_format and _parse_table_create; Python
string membership makes this a substring test on the uppercased token text. -/
def textMatchStr (pat : String) (st : PState) : Bool :=
  match curr st with
  | some t => strContains pat (upStr t.text)
  | none => false

/-- Modelled from the spec: the host parser's _match_texts applied to a list of
texts (exact membership of the uppercased token text), as in
_parse_location's segment-scope checks. -/
def matchTexts (pats : List String) (st : PState) : Option PState :=
  match curr st with
  | some t => if upStr t.text ∈ pats then some (advanceState st) else none
  | none => none

/-- Property nodes of the dialect (src property classes DistributedByProperty,
DistributedRandomlyProperty, ExternalProperty, WritableProperty,
ReadableProperty, LocationProperty, FormatProperty, EncodingProperty). -/
inductive OptVal where
  | str (s : String)
  | boolTrue
  deriving DecidableEq, Repr

inductive GpProp where
  | DistributedBy (cols : List String)
  | DistributedRandomly
  | External
  | Readable
  | Writable
  | Location (uris : List String) (segments : Option String)
  | Format (name : String) (options : Option (List (String × OptVal)))
  | Encoding (name : String)
  deriving DecidableEq, Repr

/-- Parse results: errors carry the message and the parser state at the raise
point, since the Python parser instance keeps its mutations when an exception
propagates. -/
abbrev PResult (α : Type) := Except (String × PState) α

/-- Message of an error result, if any. -/
def errMsgOf {α : Type} : PResult α → Option String
  | .error (m, _) => some m
  | .ok _ => none

/-- True when a result is an error. -/
def isErr {α : Type} : PResult α → Bool
  | .error _ => true
  | .ok _ => false

/-- Modelled from the spec: the host parser's _parse_id_var used by
_parse_distributed_by's csv loop — matches a bare word token as an identifier
and refuses punctuation, so an empty parenthesized list yields no items. -/
def parseIdVar (st : PState) : Option (String × PState) :=
  match curr st with
  | some t =>
    if t.ttype = TokType.VAR ∨ t.ttype = TokType.IDENTIFIER then
      some (t.text, advanceState st)
    else none
  | none => none

/-- Modelled from the spec: the host parser's _parse_csv loop — one item (or
none), then further items after each comma. -/
def csvLoop : Nat → PState → List String → List String × PState
  | 0, st, acc => (acc, st)
  | n + 1, st, acc =>
    match matchType TokType.COMMA st with
    | some (_, st') =>
      match parseIdVar st' with
      | some (x, st'') => csvLoop n st'' (acc ++ [x])
      | none => csvLoop n st' acc
    | none => (acc, st)

/-- Modelled from the spec: _parse_csv(self._parse_id_var). -/
def parseCsvIds (st : PState) : List String × PState :=
  match parseIdVar st with
  | some (x, st') => csvLoop (st'.tokens.length + 1) st' [x]
  | none => csvLoop (st.tokens.length + 1) st []

/-- Faithful to src _parse_distributed_by: requires parentheses around a csv
identifier list; no check rejects an empty list. -/
def parseDistributedBy (st : PState) : PResult (GpProp × PState) :=
  match matchType TokType.L_PAREN st with
  | none => .error ("Expected '(' after DISTRIBUTED BY", st)
  | some (_, st) =>
    match parseCsvIds st with
    | (exprs, st) =>
      match matchType TokType.R_PAREN st with
      | none => .error ("Expected ')' after DISTRIBUTED BY column list", st)
      | some (_, st) => .ok (GpProp.DistributedBy exprs, st)

/-- Faithful to src _parse_location's uri loop: while True, optionally match a
string, then continue on a comma and break otherwise. -/
def locLoop : Nat → PState → List String → List String × PState
  | 0, st, acc => (acc, st)
  | n + 1, st, acc =>
    match matchType TokType.STRING st with
    | some (t, st') =>
      match matchType TokType.COMMA st' with
      | some (_, st'') => locLoop n st'' (acc ++ [t.text])
      | none => (acc ++ [t.text], st')
    | none =>
      match matchType TokType.COMMA st with
      | some (_, st') => locLoop n st' acc
      | none => (acc, st)

/-- Faithful to src _parse_location: parentheses around one or more string
literals (empty list raises after the closing parenthesis), then an optional
ON ALL/MASTER/SEGMENTS segment scope; an ON token is consumed even when no
scope word follows. -/
def parseLocation (st : PState) : PResult (GpProp × PState) :=
  match matchType TokType.L_PAREN st with
  | none => .error ("Expected '(' after LOCATION", st)
  | some (_, st) =>
    match locLoop (st.tokens.length + 1) st [] with
    | (locations, st) =>
      match matchType TokType.R_PAREN st with
      | none => .error ("Expected ')' after LOCATION parameters", st)
      | some (_, st) =>
        if locations = [] then
          .error ("Expected at least one location in LOCATION clause", st)
        else
          match matchType TokType.ON st with
          | some (_, st1) =>
            match matchTexts ["ALL"] st1 with
            | some st2 => .ok (GpProp.Location locations (some "ALL"), st2)
            | none =>
              match matchTexts ["MASTER"] st1 with
              | some st2 => .ok (GpProp.Location locations (some "MASTER"), st2)
              | none =>
                match matchTexts ["SEGMENTS"] st1 with
                | some st2 => .ok (GpProp.Location locations (some "SEGMENTS"), st2)
                | none => .ok (GpProp.Location locations none, st1)
          | none => .ok (GpProp.Location locations none, st)

/-- Python dict assignment on the options mapping: update in place when the
key exists, append otherwise (insertion order preserved). -/
def dictInsert (m : List (String × OptVal)) (k : String) (v : OptVal) :
    List (String × OptVal) :=
  if m.any (fun p => p.1 = k) then
    m.map (fun p => if p.1 = k then (k, v) else p)
  else m ++ [(k, v)]

/-- Faithful to src _parse_format's per-key sub-grammar for string-valued
options: an AS or = separator (EQ only when allowAs is false, as in the
FORMATTER branch), then a required string value; when the separator is absent
the branch falls through without consuming anything further. -/
def strOpt (key : String) (allowAs : Bool) (st : PState)
    (opts : List (String × OptVal)) : PResult (List (String × OptVal) × PState) :=
  match (if allowAs && textMatchStr "AS" st then some (advanceState st)
         else (matchType TokType.EQ st).map (fun p => p.2)) with
  | some st =>
    match matchType TokType.STRING st with
    | some (v, st) => .ok (dictInsert opts key (OptVal.str v.text), st)
    | none => .error ("Expected string value for " ++ key, st)
  | none => .ok (opts, st)

/-- Faithful to src _parse_format's option-list loop body: the ordered elif
chain over FORMATTER, DELIMITER, NULL, HEADER, QUOTE, ESCAPE, NEWLINE,
FILL MISSING FIELDS, then a generic quoted-identifier key. -/
def fmtStep (st : PState) (opts : List (String × OptVal)) :
    PResult (List (String × OptVal) × PState) :=
  if textMatchStr "FORMATTER" st then
    strOpt "FORMATTER" false (advanceState st) opts
  else if textMatchStr "DELIMITER" st then
    strOpt "DELIMITER" true (advanceState st) opts
  else if textMatchStr "NULL" st then
    strOpt "NULL" true (advanceState st) opts
  else if textMatchStr "HEADER" st then
    .ok (dictInsert opts "HEADER" OptVal.boolTrue, advanceState st)
  else if textMatchStr "QUOTE" st then
    strOpt "QUOTE" true (advanceState st) opts
  else if textMatchStr "ESCAPE" st then
    strOpt "ESCAPE" true (advanceState st) opts
  else if textMatchStr "NEWLINE" st then
    strOpt "NEWLINE" true (advanceState st) opts
  else if textMatchStr "FILL" st then
    match (if textMatchStr "MISSING" (advanceState st)
           then some (advanceState (advanceState st)) else none) with
    | some st' =>
      if textMatchStr "FIELDS" st' then
        .ok (dictInsert opts "FILL_MISSING_FIELDS" OptVal.boolTrue, advanceState st')
      else .ok (opts, st')
    | none => .ok (opts, advanceState st)
  else
    match matchType TokType.IDENTIFIER st with
    | some (t, st) =>
      match matchType TokType.EQ st with
      | some (_, st) =>
        match matchType TokType.STRING st with
        | some (v, st) => .ok (dictInsert opts (upStr t.text) (OptVal.str v.text), st)
        | none => .error ("Expected string value for " ++ upStr t.text, st)
      | none => .ok (opts, st)
    | none => .ok (opts, st)

/-- Faithful to src _parse_format's option-list loop: run the elif chain, then
continue on a comma and break otherwise. -/
def fmtLoop : Nat → PState → List (String × OptVal) →
    PResult (List (String × OptVal) × PState)
  | 0, st, _ => .error ("format option loop fuel exhausted", st)
  | n + 1, st, opts =>
    match fmtStep st opts with
    | .error e => .error e
    | .ok (opts, st) =>
      match matchType TokType.COMMA st with
      | some (_, st') => fmtLoop n st' opts
      | none => .ok (opts, st)

/-- Faithful to src _parse_format: a required format string, an optional
parenthesized option list, and normalization of an empty mapping to no
options. -/
def parseFormat (st : PState) : PResult (GpProp × PState) :=
  match matchType TokType.STRING st with
  | none => .error ("Expected format string after FORMAT", st)
  | some (ft, st) =>
    match matchType TokType.L_PAREN st with
    | none => .ok (GpProp.Format ft.text none, st)
    | some (_, st) =>
      match fmtLoop (st.tokens.length + 1) st [] with
      | .error e => .error e
      | .ok (opts, st) =>
        match matchType TokType.R_PAREN st with
        | none => .error ("Expected ')' after FORMAT options", st)
        | some (_, st) =>
          .ok (GpProp.Format ft.text (if opts = [] then none else some opts), st)

/-- Faithful to src _parse_encoding: a single required string literal. -/
def parseEncoding (st : PState) : PResult (GpProp × PState) :=
  match matchType TokType.STRING st with
  | none => .error ("Expected encoding string after ENCODING", st)
  | some (enc, st) => .ok (GpProp.Encoding enc.text, st)

/-- The table expression of a create statement: either a plain table name or an
anonymous function expression (exp.Anonymous), which the assembler skips. -/
inductive TableRef where
  | TName (s : String)
  | TAnon (s : String)
  deriving DecidableEq, Repr

/-- True for an anonymous table expression. -/
def tableRefIsAnon : TableRef → Bool
  | TableRef.TAnon _ => true
  | TableRef.TName _ => false

/-- A create statement: kind, target expression, column schema and the
optional ordered property collection. -/
structure Create where
  kind : String
  this : TableRef
  columns : List (String × String)
  properties : Option (List GpProp)
  deriving DecidableEq, Repr

/-- Faithful to src _parse_table_create lines 280-298: record the checkpoint
(_index and a copy of _comments), speculatively match a READABLE or WRITABLE
prefix and then EXTERNAL, setting the session flags; when EXTERNAL is absent
but a READABLE/WRITABLE flag exists, restore the token position and the
comment buffer (the flag itself is left set). -/
def prefixScan (st : PState) : PState :=
  let pos := st.index
  let cmts := st.comments
  let st1 :=
    if textMatchStr "READABLE" st then
      let s := advanceState st
      { s with sess := { s.sess with extReadable := true } }
    else if textMatchStr "WRITABLE" st then
      let s := advanceState st
      { s with sess := { s.sess with extWritable := true } }
    else st
  if textMatchStr "EXTERNAL" st1 then
    let s := advanceState st1
    { s with sess := { s.sess with isExternal := true } }
  else if st1.sess.extReadable || st1.sess.extWritable then
    { st1 with index := pos, comments := cmts }
  else st1

/-- Faithful to src _parse_create lines 250-276: after the generic create
parse returns, when the statement is a TABLE create whose target is not
anonymous and the external flag is set, ensure a property collection and
append External, then Readable if flagged, then Writable if flagged; the
flags touched are deleted (a set flag becomes absent, an unset one stays
absent, so the session in that branch is fully cleared). -/
def postProcessCreate (create : Create) (st : PState) : Create × PState :=
  if create.kind = "TABLE" ∧ tableRefIsAnon create.this = false then
    if st.sess.isExternal then
      let props1 := create.properties.getD [] ++ [GpProp.External]
      let props2 := if st.sess.extReadable then props1 ++ [GpProp.Readable] else props1
      let props3 := if st.sess.extWritable then props2 ++ [GpProp.Writable] else props2
      ({ create with properties := some props3 },
       { st with sess := ⟨false, false, false⟩ })
    else (create, st)
  else (create, st)

/-- Modelled from the spec: the generic column-schema parse inside the host
table-create routine (an external collaborator per spec section 1); columns
are word pairs (name, type) separated by commas. -/
def colsLoop : Nat → PState → List (String × String) →
    PResult (List (String × String) × PState)
  | 0, st, _ => .error ("schema loop fuel exhausted", st)
  | n + 1, st, acc =>
    match matchType TokType.VAR st with
    | none => .ok (acc, st)
    | some (nm, st) =>
      match matchType TokType.VAR st with
      | none => .error ("Expected column type", st)
      | some (ty, st) =>
        match matchType TokType.COMMA st with
        | some (_, st') => colsLoop n st' (acc ++ [(nm.text, ty.text)])
        | none => .ok (acc ++ [(nm.text, ty.text)], st)

/-- The dialect's PROPERTY_PARSERS keys (src lines 103-112); the host property
dispatcher matches the current token text against this key set exactly. -/
def propKeys : List String :=
  ["DISTRIBUTED BY", "DISTRIBUTED RANDOMLY", "LOCATION", "FORMAT", "ENCODING"]

/-- Modelled from the spec: one step of the host property loop — match a
PROPERTY_PARSERS key by token text and run the dialect's clause parser for
it; an unrecognized token ends the property list. -/
def propertyStep (st : PState) : PResult (Option (GpProp × PState)) :=
  match curr st with
  | none => .ok none
  | some t =>
    let k := upStr t.text
    if k ∈ propKeys then
      let st1 := advanceState st
      if k = "DISTRIBUTED BY" then
        match parseDistributedBy st1 with
        | .error e => .error e
        | .ok r => .ok (some r)
      else if k = "DISTRIBUTED RANDOMLY" then
        .ok (some (GpProp.DistributedRandomly, st1))
      else if k = "LOCATION" then
        match parseLocation st1 with
        | .error e => .error e
        | .ok r => .ok (some r)
      else if k = "FORMAT" then
        match parseFormat st1 with
        | .error e => .error e
        | .ok r => .ok (some r)
      else
        match parseEncoding st1 with
        | .error e => .error e
        | .ok r => .ok (some r)
    else .ok none

/-- Modelled from the spec: the host property loop collecting clause nodes in
parse order. -/
def propsLoop : Nat → PState → List GpProp → PResult (List GpProp × PState)
  | 0, st, _ => .error ("property loop fuel exhausted", st)
  | n + 1, st, acc =>
    match propertyStep st with
    | .error e => .error e
    | .ok none => .ok (acc, st)
    | .ok (some (p, st')) => propsLoop n st' (acc ++ [p])

/-- Modelled from the spec: the generic table-create routine the assembler
wraps — TABLE keyword, table name, parenthesized column schema, then the
property list; the property collection is absent when no clause was parsed. -/
def parseTableCreateGeneric (st : PState) : PResult (Create × PState) :=
  match matchType TokType.TABLE st with
  | none => .error ("Expected TABLE", st)
  | some (_, st) =>
    match matchType TokType.VAR st with
    | none => .error ("Expected table name", st)
    | some (nm, st) =>
      match matchType TokType.L_PAREN st with
      | none => .error ("Expected ( before column schema", st)
      | some (_, st) =>
        match colsLoop (st.tokens.length + 1) st [] with
        | .error e => .error e
        | .ok (cols, st) =>
          match matchType TokType.R_PAREN st with
          | none => .error ("Expected ) after column schema", st)
          | some (_, st) =>
            match propsLoop (st.tokens.length + 1) st [] with
            | .error e => .error e
            | .ok (props, st) =>
              .ok ({ kind := "TABLE", this := TableRef.TName nm.text,
                     columns := cols,
                     properties := if props = [] then none else some props }, st)

/-- Faithful to src _parse_table_create line 300: after the prefix scan,
delegate to the generic table-create routine. -/
def parseTableCreateDialect (st : PState) : PResult (Create × PState) :=
  parseTableCreateGeneric (prefixScan st)

/-- Modelled from the spec: the generic _parse_create the dialect's override
calls via super(); it dispatches to self._parse_table_create, which dynamic
dispatch resolves to the dialect's override. -/
def genericParseCreate (st : PState) : PResult (Create × PState) :=
  parseTableCreateDialect st

/-- Faithful to src _parse_create lines 246-276: run the generic create parse,
then apply the external-table post-processing to a successful result; an
exception propagates with the session flags untouched. -/
def dialectParseCreate (st : PState) : PResult (Create × PState) :=
  match genericParseCreate st with
  | .error e => .error e
  | .ok (c, st') =>
    match postProcessCreate c st' with
    | (c2, st2) => .ok (c2, st2)

/-- Modelled from the spec: the generic statement dispatcher — an empty stream
yields no statement, a CREATE-kind token dispatches to _parse_create, and
other statements are outside this dialect's grammar. -/
def genericParseStatement (st : PState) : PResult (Option Create × PState) :=
  match curr st with
  | none => .ok (none, st)
  | some t =>
    if t.ttype = TokType.CREATE then
      match dialectParseCreate (advanceState st) with
      | .error e => .error e
      | .ok (c, st') => .ok (some c, st')
    else .error ("unsupported statement", st)

/-- Faithful to src _parse_statement lines 302-314: try the generic statement
parse; on an exception, inspect the external flag (the intended fallback is
an explicit no-op) and re-raise the same exception. -/
def parseStatementDialect (st : PState) : PResult (Option Create × PState) :=
  match genericParseStatement st with
  | .ok r => .ok r
  | .error (e, s) =>
    if s.sess.isExternal then .error (e, s) else .error (e, s)

/-- Raw lexemes before keyword classification. -/
inductive RawTok where
  | word (s : String)
  | strLit (s : String)
  | punct (c : Char)
  deriving DecidableEq, Repr

/-- True for a character that can continue a word lexeme. -/
def isWordChar (c : Char) : Bool :=
  c.isAlphanum || c = '_'

/-- Longest word run at the head of the character list. -/
def lexWord : List Char → List Char × List Char
  | [] => ([], [])
  | c :: cs =>
    if isWordChar c then
      match lexWord cs with
      | (w, r) => (c :: w, r)
    else ([], c :: cs)

/-- Content of a single-quoted string literal and the rest of the input. -/
def lexStr : List Char → Option (List Char × List Char)
  | [] => none
  | c :: cs =>
    if c = '\'' then some ([], cs)
    else (lexStr cs).map (fun p => (c :: p.1, p.2))

/-- True for whitespace the lexer skips. -/
def isSpaceChar (c : Char) : Bool :=
  c = ' ' || c = '\n' || c = '\t' || c = '\r'

/-- Modelled from the spec: the host lexer (an external collaborator) splitting
the text into words, quoted string literals and punctuation. -/
def lexRaw : Nat → List Char → Except String (List RawTok)
  | 0, _ => .error "lexer fuel exhausted"
  | _, [] => .ok []
  | n + 1, c :: cs =>
    if isSpaceChar c then lexRaw n cs
    else if c = '(' ∨ c = ')' ∨ c = ',' ∨ c = '=' ∨ c = ';' then
      (lexRaw n cs).map (fun ts => RawTok.punct c :: ts)
    else if c = '\'' then
      match lexStr cs with
      | none => .error "unterminated string literal"
      | some (w, r) => (lexRaw n r).map (fun ts => RawTok.strLit (String.mk w) :: ts)
    else if isWordChar c then
      match lexWord (c :: cs) with
      | (w, r) => (lexRaw n r).map (fun ts => RawTok.word (String.mk w) :: ts)
    else .error "unexpected character"

/-- Faithful to src Tokenizer.KEYWORDS (single-word entries): EXTERNAL,
READABLE and WRITABLE reuse the CREATE kind, LOCATION reuses FROM, ENCODING
reuses CHARACTER_SET, FORMATTER reuses PROCEDURE; other words fall through to
the host classification (a bare word token). -/
def keywordTok (w : String) : Token :=
  let u := upStr w
  if u = "CREATE" then ⟨TokType.CREATE, w⟩
  else if u = "TABLE" then ⟨TokType.TABLE, w⟩
  else if u = "EXTERNAL" then ⟨TokType.CREATE, w⟩
  else if u = "READABLE" then ⟨TokType.CREATE, w⟩
  else if u = "WRITABLE" then ⟨TokType.CREATE, w⟩
  else if u = "LOCATION" then ⟨TokType.FROM, w⟩
  else if u = "FORMAT" then ⟨TokType.FORMAT, w⟩
  else if u = "ENCODING" then ⟨TokType.CHARACTER_SET, w⟩
  else if u = "FORMATTER" then ⟨TokType.PROCEDURE, w⟩
  else if u = "ON" then ⟨TokType.ON, w⟩
  else if u = "AS" then ⟨TokType.ALIAS, w⟩
  else if u = "NULL" then ⟨TokType.NULLT, w⟩
  else ⟨TokType.VAR, w⟩

/-- Faithful to src Tokenizer.KEYWORDS (multi-word entries): the dedicated
token kinds for DISTRIBUTED BY, DISTRIBUTED RANDOMLY, ON ALL, ON MASTER and
ON SEGMENTS. -/
def multiKey (u1 u2 : String) : Option TokType :=
  if u1 = "DISTRIBUTED" ∧ u2 = "BY" then some TokType.DISTRIBUTED_BY
  else if u1 = "DISTRIBUTED" ∧ u2 = "RANDOMLY" then some TokType.DISTRIBUTED_RANDOMLY
  else if u1 = "ON" ∧ u2 = "ALL" then some TokType.ON_ALL
  else if u1 = "ON" ∧ u2 = "MASTER" then some TokType.ON_MASTER
  else if u1 = "ON" ∧ u2 = "SEGMENTS" then some TokType.ON_SEGMENTS
  else none

/-- Kind of a punctuation character. -/
def punctType (c : Char) : TokType :=
  if c = '(' then TokType.L_PAREN
  else if c = ')' then TokType.R_PAREN
  else if c = ',' then TokType.COMMA
  else if c = '=' then TokType.EQ
  else TokType.SEMICOLON

/-- Modelled from the spec: keyword classification over the lexemes — a pair
of adjacent words forming a multi-word keyword emits its dedicated kind as a
single token (spec section 4.1), otherwise the single-word table applies. -/
def combineToks : List RawTok → List Token
  | [] => []
  | RawTok.word w1 :: RawTok.word w2 :: rest =>
    match multiKey (upStr w1) (upStr w2) with
    | some tt => ⟨tt, w1 ++ " " ++ w2⟩ :: combineToks rest
    | none => keywordTok w1 :: combineToks (RawTok.word w2 :: rest)
  | RawTok.word w :: rest => keywordTok w :: combineToks rest
  | RawTok.strLit s :: rest => ⟨TokType.STRING, s⟩ :: combineToks rest
  | RawTok.punct c :: rest => ⟨punctType c, String.mk [c]⟩ :: combineToks rest

/-- Modelled from the spec: the tokenizer — lexing followed by keyword
classification. -/
def tokenize (s : String) : Except String (List Token) :=
  (lexRaw (s.data.length + 1) s.data).map combineToks

/-- Modelled from the spec: the host's end-of-statement check — a statement
parse that leaves tokens unconsumed is an invalid expression. -/
def parseSql (sess : Session) (s : String) : PResult (Option Create × PState) :=
  match tokenize s with
  | .error e => .error (e, ⟨[], 0, [], sess⟩)
  | .ok ts =>
    match parseStatementDialect ⟨ts, 0, [], sess⟩ with
    | .error e => .error e
    | .ok (c, st) =>
      match curr st with
      | some _ => .error ("Invalid expression / Unexpected token", st)
      | none => .ok (c, st)

/-- Render a string literal with single quotes, as the host generator does. -/
def renderLiteral (s : String) : String :=
  "'" ++ s ++ "'"

/-- Faithful to src Generator._format_options: boolean-true options render as
the bare key, string options as KEY='value', joined by commas. -/
def formatOptions (opts : List (String × OptVal)) : String :=
  String.intercalate ", "
    (opts.map (fun p =>
      match p.2 with
      | OptVal.boolTrue => p.1
      | OptVal.str v => p.1 ++ "='" ++ v ++ "'"))

/-- Faithful to src Generator.TRANSFORMS: the fixed-syntax text for each
property node; the LOCATION suffix appears only when the segment scope is
set, the FORMAT option list only when the mapping is non-empty. -/
def renderProp : GpProp → String
  | GpProp.DistributedBy cols =>
    "DISTRIBUTED BY (" ++ String.intercalate ", " cols ++ ")"
  | GpProp.DistributedRandomly => "DISTRIBUTED RANDOMLY"
  | GpProp.External => "EXTERNAL"
  | GpProp.Writable => "WRITABLE"
  | GpProp.Readable => "READABLE"
  | GpProp.Location uris segs =>
    "LOCATION (" ++ String.intercalate ", " (uris.map renderLiteral) ++ ")" ++
      (match segs with
       | some s => " ON " ++ s
       | none => "")
  | GpProp.Format name opts =>
    "FORMAT " ++ renderLiteral name ++
      (match opts with
       | some l => if l = [] then "" else " (" ++ formatOptions l ++ ")"
       | none => "")
  | GpProp.Encoding name => "ENCODING " ++ renderLiteral name

/-- Faithful to src Generator.PROPERTIES_LOCATION: External, Writable and
Readable are POST_CREATE; the other dialect properties are POST_SCHEMA. -/
def isPostCreate : GpProp → Bool
  | GpProp.External => true
  | GpProp.Writable => true
  | GpProp.Readable => true
  | _ => false

/-- Modelled from the spec: the generic create serializer — POST_CREATE
properties between CREATE and the kind, POST_SCHEMA properties after the
column schema, each group in insertion order (spec sections 3 and 4.4). -/
def createSql (c : Create) : String :=
  let props := c.properties.getD []
  let pc := props.filter isPostCreate
  let ps := props.filter (fun p => !isPostCreate p)
  let name := match c.this with
    | TableRef.TName s => s
    | TableRef.TAnon s => s
  "CREATE" ++ String.join (pc.map (fun p => " " ++ renderProp p)) ++
    " TABLE " ++ name ++ " (" ++
    String.intercalate ", " (c.columns.map (fun p => p.1 ++ " " ++ p.2)) ++ ")" ++
    String.join (ps.map (fun p => " " ++ renderProp p))

/-- Words of a text, splitting on whitespace runs. -/
def wordsAux : List Char → List Char → List String
  | [], cur => if cur = [] then [] else [String.mk cur.reverse]
  | c :: cs, cur =>
    if isSpaceChar c then
      if cur = [] then wordsAux cs []
      else String.mk cur.reverse :: wordsAux cs []
    else wordsAux cs (c :: cur)

/-- Whitespace normalization from the round-trip property: collapse every
whitespace run to a single space. -/
def normalize (s : String) : String :=
  String.intercalate " " (wordsAux s.data [])

/-- Parse one statement from text and render it back, when it parses. -/
def renderParsed (sess : Session) (s : String) : Option String :=
  match parseSql sess s with
  | .ok (some c, _) => some (createSql c)
  | _ => none

/-- Session left in the parser instance after parsing one statement (kept on
both success and failure, as the Python instance keeps its attributes). -/
def sessAfter (sess : Session) (s : String) : Session :=
  match parseSql sess s with
  | .ok (_, st) => st.sess
  | .error (_, st) => st.sess

/-- Create statement of a successful parse, if any. -/
def okCreateOf : PResult (Option Create × PState) → Option Create
  | .ok (c, _) => c
  | .error _ => none

/-- True when the statement carries an External property node. -/
def hasExternalProp : Option Create → Bool
  | some c => (c.properties.getD []).any (fun p => p = GpProp.External)
  | none => false

/-- Initial parser state over a token list. -/
def mkSt (ts : List Token) : PState :=
  ⟨ts, 0, [], sessInit⟩

/-- Parser state over a token list with the cursor at a given position. -/
def mkStAt (ts : List Token) (i : Nat) : PState :=
  ⟨ts, i, [], sessInit⟩

/-- Shorthand tokens for concrete test streams. -/
def lpTok : Token := ⟨TokType.L_PAREN, "("⟩

def rpTok : Token := ⟨TokType.R_PAREN, ")"⟩

def commaTok : Token := ⟨TokType.COMMA, ","⟩

def eqTok : Token := ⟨TokType.EQ, "="⟩

def asTok : Token := ⟨TokType.ALIAS, "AS"⟩

def onTok : Token := ⟨TokType.ON, "ON"⟩

def strTok (s : String) : Token := ⟨TokType.STRING, s⟩

def wordTok (s : String) : Token := ⟨TokType.VAR, s⟩

def fmtKeyTok : Token := ⟨TokType.PROCEDURE, "FORMATTER"⟩

def nullTok : Token := ⟨TokType.NULLT, "NULL"⟩

/-- FORMAT clause token stream: format string then one key-separator-value
option in parentheses. -/
def fmtToks1 (key sep : Token) (v : String) : List Token :=
  [strTok "CSV", lpTok, key, sep, strTok v, rpTok]

/-- FORMAT clause token stream with the option value missing. -/
def fmtToksNoVal (key sep : Token) : List Token :=
  [strTok "CSV", lpTok, key, sep, rpTok]

/-- Grammar text exercising the READABLE EXTERNAL prefix (repo test
test_external_table asserts it transpiles to itself). -/
def c1Input : String :=
  "CREATE READABLE EXTERNAL TABLE ext_table (id INT) LOCATION ('file://host/path/file.csv') FORMAT 'CSV'"

/-- What the code actually renders for c1Input. -/
def c1Output : String :=
  "CREATE EXTERNAL READABLE TABLE ext_table (id INT) LOCATION ('file://host/path/file.csv') FORMAT 'CSV'"

/-- Grammar text exercising the ON ALL segment scope (repo test
test_external_table asserts it transpiles to itself). -/
def c1OnInput : String :=
  "CREATE EXTERNAL TABLE ext_table (id INT) LOCATION ('file://host/path/file.csv') ON ALL FORMAT 'CSV'"

/-- Statement A for the leakage scenario: external prefix, then a clause
error. -/
def c2InputA : String := "CREATE EXTERNAL TABLE t (id INT) LOCATION ()"

/-- Statement B for the leakage scenario: a plain table create. -/
def c2InputB : String := "CREATE TABLE u (id INT)"

/-- LOCATION clause stream for C10: uri list, then ON followed by a token
that is none of ALL/MASTER/SEGMENTS. -/
def c10Toks (t : Token) : List Token :=
  [lpTok, strTok "a", rpTok, onTok, t]

/-- A table create whose target is an anonymous expression. -/
def c6AnonCreate : Create :=
  ⟨"TABLE", TableRef.TAnon "f", [("id", "INT")], none⟩

/-- Parser state with only the external flag set. -/
def c6ExtOnlyState : PState :=
  ⟨[], 0, [], ⟨true, false, false⟩⟩

/-- A plain named table create without properties. -/
def c6WCreate : Create :=
  ⟨"TABLE", TableRef.TName "t", [("id", "INT")], none⟩

/-- Parser state with the external and readable flags set. -/
def c6WState : PState :=
  ⟨[], 0, [], ⟨true, true, false⟩⟩

/-- Parser state whose stream starts with a WRITABLE word not followed by
EXTERNAL, with a buffered leading comment. -/
def c7WState : PState :=
  ⟨[⟨TokType.CREATE, "WRITABLE"⟩, ⟨TokType.TABLE, "TABLE"⟩], 0, ["lead"], sessInit⟩

/-- Claim C1 (code_bug evidence): round-trip fails on the code.  A grammar
text with a READABLE prefix parses, but renders with the head reordered to
EXTERNAL READABLE (the assembler appends External first and the serializer
preserves insertion order), so render(parse(text)) differs from
normalize(text); and a grammar text with an ON ALL segment scope does not
parse at all, because the keyword table emits a single dedicated ON_ALL token
that _parse_location (which matches a plain ON token) never consumes. -/
theorem c1_roundtrip_violation :
    renderParsed sessInit c1Input = some c1Output ∧
    normalize c1Input = c1Input ∧
    c1Output ≠ c1Input ∧
    isErr (parseSql sessInit c1OnInput) = true ∧
    errMsgOf (parseSql sessInit c1OnInput) =
      some "Invalid expression / Unexpected token" :=
  ⟨rfl, rfl, by decide, rfl, rfl⟩

/-- Claim C2 (code_bug evidence): the session flags are not cleared on a
failing create parse.  Statement A sets the external flag and then fails in
its LOCATION clause; the flag survives in the parser instance, and parsing
plain statement B with the same instance attaches an External node to B. -/
theorem c2_flag_leak :
    isErr (parseSql sessInit c2InputA) = true ∧
    (sessAfter sessInit c2InputA).isExternal = true ∧
    hasExternalProp (okCreateOf (parseSql (sessAfter sessInit c2InputA) c2InputB)) = true :=
  ⟨rfl, rfl, rfl⟩

/-- Claim C3 (counterexample): DISTRIBUTED BY with an empty parenthesized
list does not fail — no error is raised, contrary to the claimed EmptyList
failure. -/
theorem c3_counterexample :
    isErr (parseDistributedBy (mkSt [lpTok, rpTok])) = false :=
  rfl

/-- Claim C3 (amended): parsing DISTRIBUTED BY fails when the opening or the
closing parenthesis is missing, but an empty column list does not fail: the
input list () yields a DistributedBy node with no columns, while a non-empty
list yields its identifiers in order. -/
theorem c3_distributed_by_amended :
    errMsgOf (parseDistributedBy (mkSt [wordTok "id"])) =
      some "Expected '(' after DISTRIBUTED BY" ∧
    errMsgOf (parseDistributedBy (mkSt [lpTok, wordTok "id"])) =
      some "Expected ')' after DISTRIBUTED BY column list" ∧
    parseDistributedBy (mkSt [lpTok, rpTok]) =
      .ok (GpProp.DistributedBy [], mkStAt [lpTok, rpTok] 2) ∧
    parseDistributedBy (mkSt [lpTok, wordTok "id", commaTok, wordTok "b", rpTok]) =
      .ok (GpProp.DistributedBy ["id", "b"],
        mkStAt [lpTok, wordTok "id", commaTok, wordTok "b", rpTok] 5) :=
  ⟨rfl, rfl, rfl, rfl⟩

/-- Claim C4 (counterexample): a recognized string-valued option key whose
required value is absent does not always fail the FORMAT clause parse — with
no AS or = separator present, DELIMITER is silently skipped and the clause
parses to a FormatProperty with no options. -/
theorem c4_counterexample :
    parseFormat (mkSt [strTok "CSV", lpTok, wordTok "DELIMITER", rpTok]) =
      .ok (GpProp.Format "CSV" none,
        mkStAt [strTok "CSV", lpTok, wordTok "DELIMITER", rpTok] 4) :=
  rfl

/-- Claim C4 (amended): DELIMITER, NULL, QUOTE, ESCAPE and NEWLINE each take
AS or = then a string value; FORMATTER takes only = (FORMATTER AS fails at
the closing-parenthesis check); when the separator was matched and the string
value is absent the parse fails with a missing-value error; when the
separator itself is absent the option is silently skipped. -/
theorem c4_format_options_amended :
    (∀ v : String,
      parseFormat (mkSt (fmtToks1 (wordTok "DELIMITER") asTok v)) =
        .ok (GpProp.Format "CSV" (some [("DELIMITER", OptVal.str v)]),
          mkStAt (fmtToks1 (wordTok "DELIMITER") asTok v) 6) ∧
      parseFormat (mkSt (fmtToks1 (wordTok "DELIMITER") eqTok v)) =
        .ok (GpProp.Format "CSV" (some [("DELIMITER", OptVal.str v)]),
          mkStAt (fmtToks1 (wordTok "DELIMITER") eqTok v) 6) ∧
      parseFormat (mkSt (fmtToks1 nullTok asTok v)) =
        .ok (GpProp.Format "CSV" (some [("NULL", OptVal.str v)]),
          mkStAt (fmtToks1 nullTok asTok v) 6) ∧
      parseFormat (mkSt (fmtToks1 nullTok eqTok v)) =
        .ok (GpProp.Format "CSV" (some [("NULL", OptVal.str v)]),
          mkStAt (fmtToks1 nullTok eqTok v) 6) ∧
      parseFormat (mkSt (fmtToks1 (wordTok "QUOTE") asTok v)) =
        .ok (GpProp.Format "CSV" (some [("QUOTE", OptVal.str v)]),
          mkStAt (fmtToks1 (wordTok "QUOTE") asTok v) 6) ∧
      parseFormat (mkSt (fmtToks1 (wordTok "QUOTE") eqTok v)) =
        .ok (GpProp.Format "CSV" (some [("QUOTE", OptVal.str v)]),
          mkStAt (fmtToks1 (wordTok "QUOTE") eqTok v) 6) ∧
      parseFormat (mkSt (fmtToks1 (wordTok "ESCAPE") asTok v)) =
        .ok (GpProp.Format "CSV" (some [("ESCAPE", OptVal.str v)]),
          mkStAt (fmtToks1 (wordTok "ESCAPE") asTok v) 6) ∧
      parseFormat (mkSt (fmtToks1 (wordTok "ESCAPE") eqTok v)) =
        .ok (GpProp.Format "CSV" (some [("ESCAPE", OptVal.str v)]),
          mkStAt (fmtToks1 (wordTok "ESCAPE") eqTok v) 6) ∧
      parseFormat (mkSt (fmtToks1 (wordTok "NEWLINE") asTok v)) =
        .ok (GpProp.Format "CSV" (some [("NEWLINE", OptVal.str v)]),
          mkStAt (fmtToks1 (wordTok "NEWLINE") asTok v) 6) ∧
      parseFormat (mkSt (fmtToks1 (wordTok "NEWLINE") eqTok v)) =
        .ok (GpProp.Format "CSV" (some [("NEWLINE", OptVal.str v)]),
          mkStAt (fmtToks1 (wordTok "NEWLINE") eqTok v) 6) ∧
      parseFormat (mkSt (fmtToks1 fmtKeyTok eqTok v)) =
        .ok (GpProp.Format "CSV" (some [("FORMATTER", OptVal.str v)]),
          mkStAt (fmtToks1 fmtKeyTok eqTok v) 6) ∧
      errMsgOf (parseFormat (mkSt (fmtToks1 fmtKeyTok asTok v))) =
        some "Expected ')' after FORMAT options") ∧
    errMsgOf (parseFormat (mkSt (fmtToksNoVal (wordTok "DELIMITER") asTok))) =
      some "Expected string value for DELIMITER" ∧
    errMsgOf (parseFormat (mkSt (fmtToksNoVal nullTok asTok))) =
      some "Expected string value for NULL" ∧
    errMsgOf (parseFormat (mkSt (fmtToksNoVal (wordTok "QUOTE") asTok))) =
      some "Expected string value for QUOTE" ∧
    errMsgOf (parseFormat (mkSt (fmtToksNoVal (wordTok "ESCAPE") asTok))) =
      some "Expected string value for ESCAPE" ∧
    errMsgOf (parseFormat (mkSt (fmtToksNoVal (wordTok "NEWLINE") asTok))) =
      some "Expected string value for NEWLINE" ∧
    errMsgOf (parseFormat (mkSt (fmtToksNoVal fmtKeyTok eqTok))) =
      some "Expected string value for FORMATTER" ∧
    parseFormat (mkSt [strTok "CSV", lpTok, wordTok "DELIMITER", rpTok]) =
      .ok (GpProp.Format "CSV" none,
        mkStAt [strTok "CSV", lpTok, wordTok "DELIMITER", rpTok] 4) :=
  ⟨fun _ => ⟨rfl, rfl, rfl, rfl, rfl, rfl, rfl, rfl, rfl, rfl, rfl, rfl⟩,
   rfl, rfl, rfl, rfl, rfl, rfl, rfl⟩

/-- Claim C5: a LOCATION clause with an empty parenthesized list fails with
the empty-list error naming LOCATION, and any successful parse carries at
least one string literal in the LocationProperty. -/
theorem c5_location_nonempty :
    errMsgOf (parseLocation (mkSt [lpTok, rpTok])) =
      some "Expected at least one location in LOCATION clause" ∧
    ∀ (st : PState) (us : List String) (sg : Option String) (st' : PState),
      parseLocation st = .ok (GpProp.Location us sg, st') → us ≠ [] := by
  refine ⟨rfl, ?_⟩
  intro st us sg st' h
  unfold parseLocation at h
  split at h
  · exact absurd h (by simp)
  · split at h
    · split at h
      · exact absurd h (by simp)
      · split at h
        · exact absurd h (by simp)
        · split at h
          · split at h
            · simp only [Except.ok.injEq, Prod.mk.injEq, GpProp.Location.injEq] at h
              rcases h with ⟨⟨h1, _⟩, _⟩
              intro hc; subst h1; simp_all
            · split at h
              · simp only [Except.ok.injEq, Prod.mk.injEq, GpProp.Location.injEq] at h
                rcases h with ⟨⟨h1, _⟩, _⟩
                intro hc; subst h1; simp_all
              · split at h
                · simp only [Except.ok.injEq, Prod.mk.injEq, GpProp.Location.injEq] at h
                  rcases h with ⟨⟨h1, _⟩, _⟩
                  intro hc; subst h1; simp_all
                · simp only [Except.ok.injEq, Prod.mk.injEq, GpProp.Location.injEq] at h
                  rcases h with ⟨⟨h1, _⟩, _⟩
                  intro hc; subst h1; simp_all
          · simp only [Except.ok.injEq, Prod.mk.injEq, GpProp.Location.injEq] at h
            rcases h with ⟨⟨h1, _⟩, _⟩
            intro hc; subst h1; simp_all

/-- Claim C5 witness: the successful parse of LOCATION ('a') has a non-empty
uri list. -/
theorem c5_location_nonempty_witness : (["a"] : List String) ≠ [] :=
  c5_location_nonempty.2 (mkSt [lpTok, strTok "a", rpTok]) ["a"] none
    (mkStAt [lpTok, strTok "a", rpTok] 3) rfl

/-- Claim C6 (counterexample): with the external flag set and a TABLE create
whose target is an anonymous expression, the assembler leaves the statement
untouched — no property collection is created and no External node is
appended, contrary to the claim, which covers every table-create statement. -/
theorem c6_counterexample :
    (postProcessCreate c6AnonCreate c6ExtOnlyState).1.properties = none :=
  rfl

/-- Claim C6 (amended): whenever the generic create-parse returns a TABLE
create whose target is not anonymous and the external flag is set, the
assembler produces a property collection equal to the existing properties
followed by External, then Readable when that flag is set, then Writable when
that flag is set — in that fixed order. -/
theorem c6_assembler_appends (c : Create) (st : PState)
    (hk : c.kind = "TABLE") (ha : tableRefIsAnon c.this = false)
    (he : st.sess.isExternal = true) :
    (postProcessCreate c st).1.properties =
      some (c.properties.getD [] ++ [GpProp.External] ++
        (if st.sess.extReadable then [GpProp.Readable] else []) ++
        (if st.sess.extWritable then [GpProp.Writable] else [])) := by
  cases hR : st.sess.extReadable <;> cases hW : st.sess.extWritable <;>
    simp [postProcessCreate, hk, ha, he, hR, hW]

/-- Claim C6 witness: the amended statement at a concrete create and session
with the external and readable flags set. -/
theorem c6_assembler_appends_witness :
    (postProcessCreate c6WCreate c6WState).1.properties =
      some [GpProp.External, GpProp.Readable] :=
  (c6_assembler_appends c6WCreate c6WState rfl rfl rfl).trans (by decide)

/-- Claim C7: when the prefix scan matches READABLE or WRITABLE but the next
token does not match EXTERNAL, the token position and the buffered leading
comments (and the token stream itself) are restored to their values at the
start of the scan. -/
theorem c7_backtrack_restores (st : PState)
    (h1 : textMatchStr "READABLE" st = true ∨ textMatchStr "WRITABLE" st = true)
    (h2 : textMatchStr "EXTERNAL" (advanceState st) = false) :
    (prefixScan st).index = st.index ∧ (prefixScan st).comments = st.comments ∧
    (prefixScan st).tokens = st.tokens := by
  simp only [textMatchStr, curr, advanceState] at h2
  by_cases hR : textMatchStr "READABLE" st = true
  · simp only [prefixScan, hR, if_true]
    simp only [textMatchStr, curr, advanceState]
    simp only [h2, Bool.false_eq_true, if_false, Bool.true_or, if_true]
    exact ⟨trivial, trivial, trivial⟩
  · have hW : textMatchStr "WRITABLE" st = true := h1.resolve_left hR
    simp only [prefixScan, hR, if_false, hW, if_true]
    simp only [textMatchStr, curr, advanceState]
    simp only [h2, Bool.false_eq_true, if_false, Bool.or_true, if_true]
    exact ⟨trivial, trivial, trivial⟩

/-- Claim C7 witness: a WRITABLE token followed by TABLE leaves index,
comments and tokens unchanged by the prefix scan. -/
theorem c7_backtrack_restores_witness :
    (prefixScan c7WState).index = c7WState.index ∧
    (prefixScan c7WState).comments = c7WState.comments ∧
    (prefixScan c7WState).tokens = c7WState.tokens :=
  c7_backtrack_restores c7WState (Or.inr rfl) rfl

/-- Claim C8: a FORMAT clause with a syntactically present but empty option
list yields a FormatProperty whose options field is absent, never an empty
mapping. -/
theorem c8_empty_options_none (name : String) :
    parseFormat ⟨[⟨TokType.STRING, name⟩, lpTok, rpTok], 0, [], sessInit⟩ =
      .ok (GpProp.Format name none,
        ⟨[⟨TokType.STRING, name⟩, lpTok, rpTok], 3, [], sessInit⟩) :=
  rfl

/-- Claim C9: the dialect's statement-level wrapper is a no-op refinement of
the generic statement parse — it returns exactly the generic result and
re-raises exactly the generic error. -/
theorem c9_statement_wrapper_noop (st : PState) :
    parseStatementDialect st = genericParseStatement st := by
  unfold parseStatementDialect
  cases h : genericParseStatement st with
  | ok r => rfl
  | error e =>
    obtain ⟨m, s⟩ := e
    simp only [h]
    split <;> rfl

/-- Claim C10: in the LOCATION parser, an ON token after the uri list that is
not followed by ALL, MASTER or SEGMENTS is consumed anyway; the parse
succeeds with segment scope unset and the cursor left after ON (the follower
token is neither consumed nor restored behind the cursor). -/
theorem c10_on_token_consumed (t : Token)
    (h1 : upStr t.text ≠ "ALL") (h2 : upStr t.text ≠ "MASTER")
    (h3 : upStr t.text ≠ "SEGMENTS") :
    parseLocation ⟨c10Toks t, 0, [], sessInit⟩ =
      .ok (GpProp.Location ["a"] none, ⟨c10Toks t, 4, [], sessInit⟩) := by
  show (match matchTexts ["ALL"] ⟨c10Toks t, 4, [], sessInit⟩ with
        | some st2 => Except.ok (GpProp.Location ["a"] (some "ALL"), st2)
        | none =>
          match matchTexts ["MASTER"] ⟨c10Toks t, 4, [], sessInit⟩ with
          | some st2 => Except.ok (GpProp.Location ["a"] (some "MASTER"), st2)
          | none =>
            match matchTexts ["SEGMENTS"] ⟨c10Toks t, 4, [], sessInit⟩ with
            | some st2 => Except.ok (GpProp.Location ["a"] (some "SEGMENTS"), st2)
            | none =>
              Except.ok (GpProp.Location ["a"] none, ⟨c10Toks t, 4, [], sessInit⟩)) =
      Except.ok (GpProp.Location ["a"] none, ⟨c10Toks t, 4, [], sessInit⟩)
  simp [matchTexts, curr, c10Toks, h1, h2, h3]

/-- Claim C10 witness: with a concrete follower token FOO the clause parse
succeeds with segment scope unset and ON consumed. -/
theorem c10_on_token_consumed_witness :
    parseLocation ⟨c10Toks (wordTok "FOO"), 0, [], sessInit⟩ =
      .ok (GpProp.Location ["a"] none, ⟨c10Toks (wordTok "FOO"), 4, [], sessInit⟩) :=
  c10_on_token_consumed (wordTok "FOO") (by decide) (by decide) (by decide)

end Greenplum
